import Mathlib

/-!
Shallow embedding of src/jit/backend/x64/x64_dispatch.cc (the x64 dispatch
backend of the redream dynamic binary translator): the PC-indexed code cache,
its operations (code_ptr, lookup_code, cache_code, invalidate_code, init,
emit_thunks, run_code, patch_edge, restore_edge), and the observable effects
of the emitted dispatch thunks (dispatch_static, dispatch_enter,
dispatch_dynamic).  Host pointers are modelled as natural numbers; fatal
CHECK failures are modelled as Option.none; the emitted thunks are modelled
as explicit state transformers on a small machine state.
-/

namespace X64Dispatch

/-- Host pointers are modelled as natural numbers (addresses). -/
abbrev Ptr := Nat

/-- Point update of memory or cache storage modelled as a function. -/
def setSlot (f : Nat → Nat) (i v : Nat) : Nat → Nat :=
  fun j => if j = i then v else f j

/-- Fueled count of trailing zero bits; fuel 32 gives the 32-bit ctz used by
the source on the address mask (core/math.h ctz32). -/
def ctzAux : Nat → Nat → Nat
  | 0, _ => 0
  | fuel + 1, n => if n % 2 = 1 then 0 else ctzAux fuel (n / 2) + 1

/-- ctz32 from core/math.h: number of trailing zero bits of a 32-bit value. -/
def ctz32 (n : Nat) : Nat := ctzAux 32 n

/-- struct x64_backend: the fields read and written by x64_dispatch.cc.
The code cache is the function cache together with the mask, shift and size
configuration, plus the six thunk entry addresses captured at emission. -/
structure X64Backend where
  cache : Nat → Ptr
  cache_mask : Nat
  cache_shift : Nat
  cache_size : Nat
  dispatch_dynamic : Ptr
  dispatch_static : Ptr
  dispatch_compile : Ptr
  dispatch_interrupt : Ptr
  dispatch_enter : Ptr
  dispatch_exit : Ptr

/-- Modelled from the spec: the guest-CPU contract fields of struct jit_guest
(jit/jit.h is not under src/): addr_mask, the block-alignment shift, the
context field offsets, and the context and memory base pointers. -/
structure JitGuest where
  addr_mask : Nat
  cache_shift : Nat
  offset_pc : Nat
  offset_cycles : Nat
  offset_instrs : Nat
  ctx : Ptr
  mem : Ptr

/-- x64_dispatch_code_ptr: index of the cache slot addressed for addr,
namely (addr & cache_mask) >> cache_shift. -/
def x64_dispatch_code_ptr (b : X64Backend) (addr : Nat) : Nat :=
  (addr &&& b.cache_mask) >>> b.cache_shift

/-- x64_dispatch_lookup_code: return the current contents of the slot. -/
def x64_dispatch_lookup_code (b : X64Backend) (addr : Nat) : Ptr :=
  b.cache (x64_dispatch_code_ptr b addr)

/-- x64_dispatch_invalidate_code: store the compile thunk into the slot,
regardless of what it held. -/
def x64_dispatch_invalidate_code (b : X64Backend) (addr : Nat) : X64Backend :=
  { b with cache := setSlot b.cache (x64_dispatch_code_ptr b addr) b.dispatch_compile }

/-- The backend state resulting from a successful x64_dispatch_cache_code:
the addressed slot now holds code. -/
def installBackend (b : X64Backend) (addr : Nat) (code : Ptr) : X64Backend :=
  { b with cache := setSlot b.cache (x64_dispatch_code_ptr b addr) code }

/-- x64_dispatch_cache_code: CHECK_EQ(*entry, backend->dispatch_compile) and
then store code into the slot.  A failed CHECK is a fatal abort, modelled as
none. -/
def x64_dispatch_cache_code (b : X64Backend) (addr : Nat) (code : Ptr) :
    Option X64Backend :=
  if b.cache (x64_dispatch_code_ptr b addr) = b.dispatch_compile then
    some (installBackend b addr code)
  else
    none

/-- x64_dispatch_init: cache_mask := guest addr_mask, cache_shift :=
ctz32(addr_mask), cache_size := (cache_mask >> cache_shift) + 1, cache :=
freshly malloc-ed storage of unspecified contents (the fresh parameter). -/
def x64_dispatch_init (b : X64Backend) (guest : JitGuest) (fresh : Nat → Ptr) :
    X64Backend :=
  { b with
    cache_mask := guest.addr_mask
    cache_shift := ctz32 guest.addr_mask
    cache_size := (guest.addr_mask >>> ctz32 guest.addr_mask) + 1
    cache := fresh }

/-- The reset loop at the end of x64_dispatch_emit_thunks: for each index
i < n, cache[i] := compile. -/
def reset_loop (cache : Nat → Ptr) (c : Ptr) : Nat → (Nat → Ptr)
  | 0 => cache
  | n + 1 => setSlot (reset_loop cache c n) n c

/-- x64_dispatch_emit_thunks: capture the six thunk addresses produced by the
code generator and reset every cache entry to the new compile thunk. -/
def x64_dispatch_emit_thunks (b : X64Backend)
    (tdyn tstat tcomp tint tent tex : Ptr) : X64Backend :=
  { b with
    dispatch_dynamic := tdyn
    dispatch_static := tstat
    dispatch_compile := tcomp
    dispatch_interrupt := tint
    dispatch_enter := tent
    dispatch_exit := tex
    cache := reset_loop b.cache tcomp b.cache_size }

/-- The address the dispatch_dynamic thunk tail-jumps through, as emitted in
x64_dispatch_emit_thunks: cache + (pc & cache_mask) * (sizeof(void*) >>
cache_shift), with sizeof(void*) = 8 on x64. -/
def dispatch_dynamic_slot_addr (b : X64Backend) (cacheBase pc : Nat) : Nat :=
  cacheBase + (pc &&& b.cache_mask) * ((8 : Nat) >>> b.cache_shift)

/-- The reference slot mapping of the specification, written from the spec's
words for comparison with the source's dispatch_dynamic_slot_addr: the
address of cache[(pc & addr_mask) >> cache_shift], with 8-byte slots. -/
def spec_slot_addr (cacheBase mask shift pc : Nat) : Nat :=
  cacheBase + ((pc &&& mask) >>> shift) * 8

/-- Observable control events of a thunk run: an upcall into jit_add_edge, or
a tail-jump to another thunk address. -/
inductive Event where
  | callAddEdge (jit : Nat) (site : Nat) (dst : Nat)
  | jmpTo (target : Nat)
deriving DecidableEq

/-- Machine state visible to the dispatch_static thunk: the host stack (top
of stack first), the 32-bit pc field of the guest context together with the
32 bits stored just above it (the thunk loads a 64-bit qword at offset_pc),
the three argument registers, and the trace of events. -/
structure StaticState where
  stack : List Nat
  ctx_pc : Nat
  ctx_pc_hi : Nat
  arg0 : Nat
  arg1 : Nat
  arg2 : Nat
  events : List Event

/-- mov arg0, jit. -/
def stMovArg0 (jit : Nat) (s : StaticState) : StaticState :=
  { s with arg0 := jit }

/-- pop arg1. -/
def stPopArg1 (s : StaticState) : StaticState :=
  { s with arg1 := s.stack.headD 0, stack := s.stack.tail }

/-- sub arg1, 5: 64-bit wrap-around subtraction of the byte size of an
unconditional jmp instruction. -/
def stSubArg1Five (s : StaticState) : StaticState :=
  { s with arg1 := (s.arg1 + (2 ^ 64 - 5)) % 2 ^ 64 }

/-- mov arg2, qword [guestctx + offset_pc]: a 64-bit read that picks up the
pc field and the 32 bits above it. -/
def stMovArg2Pc (s : StaticState) : StaticState :=
  { s with arg2 := s.ctx_pc + 2 ^ 32 * s.ctx_pc_hi }

/-- call jit_add_edge.  Modelled from the spec: add_edge takes (jit,
source_site, destination_pc) where the destination is a 32-bit guest PC, so
the third argument register is truncated to its low 32 bits at the call
boundary (jit/jit.h is not under src/). -/
def stCallAddEdge (s : StaticState) : StaticState :=
  { s with events := s.events ++ [Event.callAddEdge s.arg0 s.arg1 (s.arg2 % 2 ^ 32)] }

/-- jmp target (tail-jump, recorded as an event). -/
def stJmp (target : Nat) (s : StaticState) : StaticState :=
  { s with events := s.events ++ [Event.jmpTo target] }

/-- The dispatch_static thunk with LINK_STATIC_BRANCHES enabled, as in the
source: mov arg0, jit; pop arg1; sub arg1, 5; mov arg2, qword [guestctx +
offset_pc]; call jit_add_edge; jmp dispatch_dynamic. -/
def dispatch_static_thunk (jit dyn : Nat) (s : StaticState) : StaticState :=
  stJmp dyn (stCallAddEdge (stMovArg2Pc (stSubArg1Five (stPopArg1 (stMovArg0 jit s)))))

/-- Machine state visible to the dispatch_enter thunk: the callee-saved
registers rbx, rbp, r12, r13, r14, r15, the host stack, the two pinned base
registers, the cycles and instrs fields of the guest context, and the event
trace. -/
structure EnterState where
  callee_saved : List Nat
  stack : List Nat
  guestctx : Nat
  guestmem : Nat
  ctx_cycles : Nat
  ctx_instrs : Nat
  events : List Event

/-- The dispatch_enter thunk: push the callee-saved registers and reserve the
spill frame, pin guestctx and guestmem to the guest's ctx and mem pointers,
store the 32-bit cycle budget at offset_cycles and zero at offset_instrs,
then jmp dispatch_dynamic. -/
def dispatch_enter_thunk (guest : JitGuest) (dyn : Nat) (cycles : Nat)
    (s : EnterState) : EnterState :=
  { s with
    stack := s.callee_saved.reverse ++ s.stack
    guestctx := guest.ctx
    guestmem := guest.mem
    ctx_cycles := cycles % 2 ^ 32
    ctx_instrs := 0
    events := s.events ++ [Event.jmpTo dyn] }

/-- x64_dispatch_run_code: invoke backend->dispatch_enter(cycles). -/
def x64_dispatch_run_code (guest : JitGuest) (dyn : Nat) (cycles : Nat)
    (s : EnterState) : EnterState :=
  dispatch_enter_thunk guest dyn cycles s

/-- Write a list of bytes at consecutive addresses of a byte memory. -/
def writeBytes (m : Nat → Nat) (a : Nat) : List Nat → (Nat → Nat)
  | [] => m
  | byte :: rest => writeBytes (setSlot m a byte) (a + 1) rest

/-- Read n bytes starting at address a. -/
def readBytes (m : Nat → Nat) (a : Nat) : Nat → List Nat
  | 0 => []
  | n + 1 => m a :: readBytes m (a + 1) n

/-- 32-bit wrap-around difference, for rel32 displacement fields. -/
def sub32 (a c : Nat) : Nat := (a + (2 ^ 32 - c % 2 ^ 32)) % 2 ^ 32

/-- Little-endian byte list of a 32-bit value. -/
def le32 (v : Nat) : List Nat :=
  [v % 256, v / 256 % 256, v / 65536 % 256, v / 16777216 % 256]

/-- Modelled from the spec: the near call encoding the Xbyak code generator
(not under src/) emits for e.call(target) at address site: E8 followed by a
rel32 displacement, five bytes; the spec fixes that both linkage-slot
encodings occupy the same fixed number of host bytes. -/
def call_enc (site target : Nat) : List Nat :=
  0xE8 :: le32 (sub32 target (site + 5))

/-- Modelled from the spec: the near unconditional jump encoding for
e.jmp(target) at address site: E9 followed by a rel32 displacement, five
bytes. -/
def jmp_enc (site target : Nat) : List Nat :=
  0xE9 :: le32 (sub32 target (site + 5))

/-- x64_dispatch_restore_edge: emit call dispatch_static at code; the dst
argument is unused, as in the source. -/
def x64_dispatch_restore_edge (b : X64Backend) (m : Nat → Nat)
    (code : Nat) (dst : Nat) : Nat → Nat :=
  writeBytes m code (call_enc code b.dispatch_static)

/-- x64_dispatch_patch_edge: emit jmp dst at code. -/
def x64_dispatch_patch_edge (b : X64Backend) (m : Nat → Nat)
    (code dst : Nat) : Nat → Nat :=
  writeBytes m code (jmp_enc code dst)

/-- An arbitrary backend used to seed the concrete instances below. -/
def b0 : X64Backend :=
  { cache := fun _ => 0, cache_mask := 0, cache_shift := 0, cache_size := 1,
    dispatch_dynamic := 100, dispatch_static := 200, dispatch_compile := 300,
    dispatch_interrupt := 400, dispatch_enter := 500, dispatch_exit := 600 }

/-- A backend whose every slot holds its compile thunk (address 300), with
the direct-mapped configuration mask 0x00FFFFFF, shift 0. -/
def bCompile : X64Backend :=
  { cache := fun _ => 300, cache_mask := 0xFFFFFF, cache_shift := 0,
    cache_size := 0x1000000, dispatch_dynamic := 100, dispatch_static := 200,
    dispatch_compile := 300, dispatch_interrupt := 400, dispatch_enter := 500,
    dispatch_exit := 600 }

/-- The same backend after every slot came to hold a compiled-block pointer
(address 7, distinct from the compile thunk). -/
def bBlock : X64Backend :=
  { bCompile with cache := fun _ => 7 }

/-- A guest whose addr_mask has four trailing zero bits. -/
def guestC3 : JitGuest :=
  { addr_mask := 0x10, cache_shift := 4, offset_pc := 0, offset_cycles := 4,
    offset_instrs := 8, ctx := 0, mem := 0 }

/-- The S1 guest configuration of the spec: addr_mask 0x00FFFFFF with
block-alignment shift 1. -/
def guestC6 : JitGuest :=
  { addr_mask := 0xFFFFFF, cache_shift := 1, offset_pc := 0, offset_cycles := 4,
    offset_instrs := 8, ctx := 0, mem := 0 }

/-- A concrete guest with a 2-byte-aligned address mask, context pointer 1234
and memory pointer 5678. -/
def guestW : JitGuest :=
  { addr_mask := 0xFFFFFE, cache_shift := 1, offset_pc := 0, offset_cycles := 4,
    offset_instrs := 8, ctx := 1234, mem := 5678 }

/-- A concrete machine state for the dispatch_static thunk: return address
105 on top of the stack, guest pc field 0x2000. -/
def sStatic : StaticState :=
  { stack := [105, 0], ctx_pc := 0x2000, ctx_pc_hi := 77, arg0 := 0, arg1 := 0,
    arg2 := 0, events := [] }

/-- A concrete machine state for the dispatch_enter thunk. -/
def sEnter : EnterState :=
  { callee_saved := [1, 2, 3, 4, 5, 6], stack := [], guestctx := 0,
    guestmem := 0, ctx_cycles := 0, ctx_instrs := 99, events := [] }

/-- A concrete byte memory holding the call-to-static encoding at site 0x50
(static thunk at address 200, as in b0). -/
def mem8 : Nat → Nat := writeBytes (fun _ => 0) 0x50 (call_enc 0x50 200)

/- ------------------------------------------------------------------ -/
/- Helper lemmas -/
/- ------------------------------------------------------------------ -/

theorem setSlot_eq (f : Nat → Nat) (i v : Nat) : setSlot f i v i = v := by
  simp [setSlot]

theorem setSlot_ne (f : Nat → Nat) {i j : Nat} (v : Nat) (h : j ≠ i) :
    setSlot f i v j = f j := by
  simp [setSlot, h]

theorem reset_loop_eq (cache : Nat → Ptr) (c : Ptr) :
    ∀ n i, i < n → reset_loop cache c n i = c := by
  intro n
  induction n with
  | zero => intro i h; exact absurd h (Nat.not_lt_zero i)
  | succ n ih =>
    intro i h
    by_cases hi : i = n
    · subst hi
      simp [reset_loop, setSlot]
    · have hlt : i < n := by omega
      simp [reset_loop, setSlot, hi, ih i hlt]

theorem pow_ctzAux_dvd : ∀ fuel n, 2 ^ ctzAux fuel n ∣ n := by
  intro fuel
  induction fuel with
  | zero => intro n; simp [ctzAux]
  | succ fuel ih =>
    intro n
    by_cases h : n % 2 = 1
    · simp [ctzAux, h]
    · have hn : n = 2 * (n / 2) := by omega
      obtain ⟨k, hk⟩ := ih (n / 2)
      simp only [ctzAux, h, if_false]
      refine ⟨k, ?_⟩
      rw [pow_succ]
      calc n = 2 * (n / 2) := hn
        _ = 2 * (2 ^ ctzAux fuel (n / 2) * k) := by rw [← hk]
        _ = 2 ^ ctzAux fuel (n / 2) * 2 * k := by ring

theorem testBit_eq_false_of_mod {m s i : Nat} (hm : m % 2 ^ s = 0)
    (hi : i < s) : m.testBit i = false := by
  have h1 : (m % 2 ^ s).testBit i = false := by
    rw [hm]; exact Nat.zero_testBit i
  rw [Nat.testBit_mod_two_pow] at h1
  simpa [hi] using h1

theorem land_mod_pow_eq_zero {m : Nat} (s : Nat) (hm : m % 2 ^ s = 0)
    (pc : Nat) : (pc &&& m) % 2 ^ s = 0 := by
  apply Nat.eq_of_testBit_eq
  intro i
  rw [Nat.testBit_mod_two_pow, Nat.testBit_and, Nat.zero_testBit]
  by_cases hi : i < s
  · rw [testBit_eq_false_of_mod hm hi]
    simp
  · simp [hi]

theorem scale_mul_eq (x s : Nat) (hs : s ≤ 3) (hx : x % 2 ^ s = 0) :
    x * ((8 : Nat) >>> s) = (x >>> s) * 8 := by
  obtain ⟨k, hk⟩ := Nat.dvd_of_mod_eq_zero hx
  subst hk
  rw [Nat.shiftRight_eq_div_pow, Nat.shiftRight_eq_div_pow]
  have hpos : 0 < 2 ^ s := Nat.pos_pow_of_pos s (by omega)
  rw [Nat.mul_div_cancel_left k hpos]
  interval_cases s <;> norm_num <;> ring

theorem wrap_sub_five {ra : Nat} (h5 : 5 ≤ ra) (hlt : ra < 2 ^ 64) :
    (ra + (2 ^ 64 - 5)) % 2 ^ 64 = ra - 5 := by
  have hs : ra + (2 ^ 64 - 5) = (ra - 5) + 2 ^ 64 := by omega
  rw [hs, Nat.add_mod_right, Nat.mod_eq_of_lt (by omega)]

theorem trunc_pc {pc hi : Nat} (h : pc < 2 ^ 32) :
    (pc + 2 ^ 32 * hi) % 2 ^ 32 = pc := by
  rw [Nat.add_mul_mod_self_left, Nat.mod_eq_of_lt h]

theorem writeBytes_lt : ∀ (bs : List Nat) (m : Nat → Nat) (a x : Nat),
    x < a → writeBytes m a bs x = m x := by
  intro bs
  induction bs with
  | nil => intro m a x h; rfl
  | cons byte rest ih =>
    intro m a x h
    show writeBytes (setSlot m a byte) (a + 1) rest x = m x
    rw [ih (setSlot m a byte) (a + 1) x (by omega)]
    exact setSlot_ne m byte (by omega)

theorem readBytes_writeBytes : ∀ (bs : List Nat) (m : Nat → Nat) (a : Nat),
    readBytes (writeBytes m a bs) a bs.length = bs := by
  intro bs
  induction bs with
  | nil => intro m a; rfl
  | cons byte rest ih =>
    intro m a
    show readBytes (writeBytes (setSlot m a byte) (a + 1) rest) a
      (rest.length + 1) = byte :: rest
    rw [readBytes]
    congr 1
    · rw [writeBytes_lt rest (setSlot m a byte) (a + 1) a (by omega)]
      exact setSlot_eq m a byte
    · exact ih (setSlot m a byte) (a + 1)

/- ------------------------------------------------------------------ -/
/- Claim theorems -/
/- ------------------------------------------------------------------ -/

/-- C2: x64_dispatch_cache_code has the precondition that the addressed slot
holds the compile thunk: if it does, the call stores the entry there and
returns normally; if it holds anything else, the CHECK fails and the call
aborts fatally, never producing a state with the entry stored. -/
theorem claim_C2 (b : X64Backend) (addr : Nat) (entry : Ptr) :
    (b.cache (x64_dispatch_code_ptr b addr) = b.dispatch_compile →
      x64_dispatch_cache_code b addr entry = some (installBackend b addr entry) ∧
      (installBackend b addr entry).cache (x64_dispatch_code_ptr b addr) = entry) ∧
    (b.cache (x64_dispatch_code_ptr b addr) ≠ b.dispatch_compile →
      x64_dispatch_cache_code b addr entry = none) := by
  constructor
  · intro h
    constructor
    · simp [x64_dispatch_cache_code, h]
    · simp [installBackend, setSlot]
  · intro h
    simp [x64_dispatch_cache_code, h]

/-- C2 witness: on a backend whose slot holds the compile thunk (address
300), installing entry 9 succeeds; on a backend whose slot holds block
pointer 7, it aborts. -/
theorem claim_C2_witness :
    x64_dispatch_cache_code bCompile 0x1000 9 =
      some (installBackend bCompile 0x1000 9) ∧
    x64_dispatch_cache_code bBlock 0x1000 9 = none :=
  ⟨((claim_C2 bCompile 0x1000 9).1 rfl).1,
   (claim_C2 bBlock 0x1000 9).2 (by decide)⟩

/-- C1 counterexample: 0x1000 and 0x1001000 are distinct PCs sharing a cache
slot under mask 0x00FFFFFF; with the slot still holding the first block's
pointer 7, installing the second block aborts the CHECK (result none) — it
does not overwrite the slot and return normally as the claim states. -/
theorem claim_C1_counterexample :
    x64_dispatch_code_ptr bBlock 0x1000 = x64_dispatch_code_ptr bBlock 0x1001000 ∧
    (0x1000 : Nat) ≠ 0x1001000 ∧
    bBlock.cache (x64_dispatch_code_ptr bBlock 0x1000) ≠ bBlock.dispatch_compile ∧
    x64_dispatch_cache_code bBlock 0x1001000 9 = none :=
  ⟨by decide, by decide, by decide, rfl⟩

/-- C1 (amended): for two PCs sharing a slot, installing the second while the
slot still holds the first's compiled-block pointer is a fatal invariant
violation (the CHECK aborts, the slot is not overwritten); overwriting
requires first invalidating the slot, after which installing the second
succeeds and the slot points to the second block's entry. -/
theorem claim_C1_amended (b : X64Backend) (a1 a2 : Nat) (entB : Ptr)
    (hslot : x64_dispatch_code_ptr b a1 = x64_dispatch_code_ptr b a2)
    (hheld : b.cache (x64_dispatch_code_ptr b a1) ≠ b.dispatch_compile) :
    x64_dispatch_cache_code b a2 entB = none ∧
    x64_dispatch_cache_code (x64_dispatch_invalidate_code b a2) a2 entB =
      some (installBackend (x64_dispatch_invalidate_code b a2) a2 entB) ∧
    (installBackend (x64_dispatch_invalidate_code b a2) a2 entB).cache
      (x64_dispatch_code_ptr b a2) = entB := by
  have h2 : b.cache (x64_dispatch_code_ptr b a2) ≠ b.dispatch_compile := by
    rw [← hslot]; exact hheld
  refine ⟨?_, ?_, ?_⟩
  · simp [x64_dispatch_cache_code, h2]
  · simp [x64_dispatch_cache_code, x64_dispatch_invalidate_code,
      x64_dispatch_code_ptr, setSlot]
  · simp [installBackend, x64_dispatch_invalidate_code,
      x64_dispatch_code_ptr, setSlot]

/-- C1 witness: in the concrete collision state, the direct second install
aborts, and invalidate-then-install leaves the slot holding entry 9. -/
theorem claim_C1_witness :
    x64_dispatch_cache_code bBlock 0x1001000 9 = none ∧
    x64_dispatch_cache_code (x64_dispatch_invalidate_code bBlock 0x1001000)
      0x1001000 9 =
      some (installBackend (x64_dispatch_invalidate_code bBlock 0x1001000)
        0x1001000 9) ∧
    (installBackend (x64_dispatch_invalidate_code bBlock 0x1001000)
      0x1001000 9).cache (x64_dispatch_code_ptr bBlock 0x1001000) = 9 :=
  claim_C1_amended bBlock 0x1000 0x1001000 9 (by decide) (by decide)

/-- C3 counterexample: with addr_mask = 0x10 the init-derived configuration
has cache_shift = ctz32(0x10) = 4, the emitted scale sizeof(void*) >>
cache_shift is 0, and at pc = 0x10 the address the dynamic thunk jumps
through differs from the spec's slot address. -/
theorem claim_C3_counterexample :
    dispatch_dynamic_slot_addr (x64_dispatch_init b0 guestC3 (fun _ => 0))
      0 0x10 ≠
    spec_slot_addr 0 guestC3.addr_mask (ctz32 guestC3.addr_mask) 0x10 := by
  decide

/-- C3 (amended): whenever ctz32(addr_mask) ≤ 3 — i.e. the emitted scale
sizeof(void*) >> cache_shift is nonzero — the address the dynamic thunk
tail-jumps through under the init-established configuration equals the
spec's slot address for every pc. -/
theorem claim_C3_amended (b : X64Backend) (guest : JitGuest)
    (fresh : Nat → Ptr) (cacheBase pc : Nat)
    (hs : ctz32 guest.addr_mask ≤ 3) :
    dispatch_dynamic_slot_addr (x64_dispatch_init b guest fresh) cacheBase pc =
      spec_slot_addr cacheBase guest.addr_mask (ctz32 guest.addr_mask) pc := by
  show cacheBase + (pc &&& guest.addr_mask) * ((8 : Nat) >>> ctz32 guest.addr_mask) =
    cacheBase + ((pc &&& guest.addr_mask) >>> ctz32 guest.addr_mask) * 8
  congr 1
  apply scale_mul_eq _ _ hs
  apply land_mod_pow_eq_zero
  exact Nat.mod_eq_zero_of_dvd (pow_ctzAux_dvd 32 guest.addr_mask)

/-- C3 witness: with addr_mask = 0x00FFFFFE (one trailing zero bit) and
pc = 0x1234, both formulas give the same slot address. -/
theorem claim_C3_witness :
    ctz32 guestW.addr_mask ≤ 3 ∧
    dispatch_dynamic_slot_addr (x64_dispatch_init b0 guestW (fun _ => 0))
      0 0x1234 =
    spec_slot_addr 0 guestW.addr_mask (ctz32 guestW.addr_mask) 0x1234 :=
  ⟨by decide, claim_C3_amended b0 guestW (fun _ => 0) 0 0x1234 (by decide)⟩

/-- C4: after thunk emission every slot below cache_size holds the (new)
compile thunk, and invalidation restores the compile thunk into the
addressed slot in every state, with no precondition on its prior
contents. -/
theorem claim_C4 (b : X64Backend) (t1 t2 t3 t4 t5 t6 : Ptr) (addr i : Nat)
    (hi : i < b.cache_size) :
    (x64_dispatch_emit_thunks b t1 t2 t3 t4 t5 t6).cache i =
      (x64_dispatch_emit_thunks b t1 t2 t3 t4 t5 t6).dispatch_compile ∧
    (x64_dispatch_invalidate_code b addr).cache
      (x64_dispatch_code_ptr b addr) = b.dispatch_compile := by
  constructor
  · show reset_loop b.cache t3 b.cache_size i = t3
    exact reset_loop_eq b.cache t3 b.cache_size i hi
  · simp [x64_dispatch_invalidate_code, setSlot]

/-- C4 witness: slot 0 of the re-emitted bBlock holds the new compile thunk
300, and invalidating 0x1000 on bBlock (whose slot held 7) restores the
compile thunk. -/
theorem claim_C4_witness :
    (x64_dispatch_emit_thunks bBlock 100 200 300 400 500 600).cache 0 =
      (x64_dispatch_emit_thunks bBlock 100 200 300 400 500 600).dispatch_compile ∧
    (x64_dispatch_invalidate_code bBlock 0x1000).cache
      (x64_dispatch_code_ptr bBlock 0x1000) = bBlock.dispatch_compile :=
  claim_C4 bBlock 100 200 300 400 500 600 0x1000 0 (by decide)

/-- C5: the dispatch_static thunk pops the return address ra, subtracts the
5-byte size of an unconditional jmp to name the linkage-slot start, loads
the 32-bit destination PC from the guest context, upcalls jit_add_edge with
(jit, ra - 5, pc), and then tail-jumps to the dynamic thunk with ra removed
from the stack, so control never returns to the source site through the
normal return path. -/
theorem claim_C5 (jit dyn : Nat) (s : StaticState) (ra : Nat)
    (rest : List Nat) (hstack : s.stack = ra :: rest) (hra5 : 5 ≤ ra)
    (hra : ra < 2 ^ 64) (hpc : s.ctx_pc < 2 ^ 32) (hev : s.events = []) :
    (dispatch_static_thunk jit dyn s).events =
      [Event.callAddEdge jit (ra - 5) s.ctx_pc, Event.jmpTo dyn] ∧
    (dispatch_static_thunk jit dyn s).stack = rest := by
  unfold dispatch_static_thunk stJmp stCallAddEdge stMovArg2Pc stSubArg1Five
    stPopArg1 stMovArg0
  simp [hstack, hev]
  have h64 : (2 : Nat) ^ 64 = 18446744073709551616 := by norm_num
  have h32 : (2 : Nat) ^ 32 = 4294967296 := by norm_num
  rw [h64] at hra
  rw [h32] at hpc
  exact ⟨by omega, hpc⟩

/-- C5 witness: with return address 105 on the stack and pc field 0x2000,
the thunk upcalls add_edge with site 100 = 105 - 5 and destination 0x2000,
then jumps to the dynamic thunk at 100 with the return address popped. -/
theorem claim_C5_witness :
    (dispatch_static_thunk 42 100 sStatic).events =
      [Event.callAddEdge 42 100 0x2000, Event.jmpTo 100] ∧
    (dispatch_static_thunk 42 100 sStatic).stack = [0] :=
  claim_C5 42 100 sStatic 105 [0] rfl (by decide) (by decide) (by decide) rfl

/-- C6 counterexample: with the S1 configuration addr_mask = 0x00FFFFFF and
guest-supplied cache_shift = 1, init does not adopt the guest shift: it
derives ctz32(addr_mask) = 0 instead, so the claimed configuration is not
representable. -/
theorem claim_C6_counterexample :
    (x64_dispatch_init b0 guestC6 (fun _ => 0)).cache_shift ≠
      guestC6.cache_shift := by
  decide

/-- C6 (amended): init uses the guest-supplied addr_mask but derives
cache_shift = ctz32(addr_mask) itself, ignoring any guest-supplied shift,
and sets cache_size = (addr_mask >> cache_shift) + 1. -/
theorem claim_C6_amended (b : X64Backend) (guest : JitGuest)
    (fresh : Nat → Ptr) :
    (x64_dispatch_init b guest fresh).cache_mask = guest.addr_mask ∧
    (x64_dispatch_init b guest fresh).cache_shift = ctz32 guest.addr_mask ∧
    (x64_dispatch_init b guest fresh).cache_size =
      (guest.addr_mask >>> ctz32 guest.addr_mask) + 1 :=
  ⟨rfl, rfl, rfl⟩

/-- C7: for every cycle budget, run_code enters through the dispatch_enter
thunk, which pins guestctx and guestmem to the guest's ctx and mem pointers,
stores the budget at offset_cycles, zeroes offset_instrs, and tail-jumps to
the dynamic thunk. -/
theorem claim_C7 (guest : JitGuest) (dyn cycles : Nat) (s : EnterState)
    (hc : cycles < 2 ^ 32) :
    (x64_dispatch_run_code guest dyn cycles s).guestctx = guest.ctx ∧
    (x64_dispatch_run_code guest dyn cycles s).guestmem = guest.mem ∧
    (x64_dispatch_run_code guest dyn cycles s).ctx_cycles = cycles ∧
    (x64_dispatch_run_code guest dyn cycles s).ctx_instrs = 0 ∧
    (x64_dispatch_run_code guest dyn cycles s).events =
      s.events ++ [Event.jmpTo dyn] := by
  refine ⟨rfl, rfl, ?_, rfl, rfl⟩
  show cycles % 2 ^ 32 = cycles
  exact Nat.mod_eq_of_lt hc

/-- C7 witness: running with budget 64 on the concrete guest pins guestctx
to 1234 and guestmem to 5678, stores 64 cycles and 0 instrs, and jumps to
the dynamic thunk at 100. -/
theorem claim_C7_witness :
    (x64_dispatch_run_code guestW 100 64 sEnter).guestctx = guestW.ctx ∧
    (x64_dispatch_run_code guestW 100 64 sEnter).guestmem = guestW.mem ∧
    (x64_dispatch_run_code guestW 100 64 sEnter).ctx_cycles = 64 ∧
    (x64_dispatch_run_code guestW 100 64 sEnter).ctx_instrs = 0 ∧
    (x64_dispatch_run_code guestW 100 64 sEnter).events =
      sEnter.events ++ [Event.jmpTo 100] :=
  claim_C7 guestW 100 64 sEnter (by decide)

/-- C8: the jump and call linkage-slot encodings occupy the same fixed
number of bytes, and for a site originally holding the call-to-static
encoding, patching it to a jump and then restoring it reproduces the
original five bytes exactly. -/
theorem claim_C8 (b : X64Backend) (m : Nat → Nat) (site dst dst2 : Nat)
    (h : readBytes m site 5 = call_enc site b.dispatch_static) :
    (jmp_enc site dst).length = (call_enc site b.dispatch_static).length ∧
    readBytes (x64_dispatch_restore_edge b
      (x64_dispatch_patch_edge b m site dst) site dst2) site 5 =
      readBytes m site 5 := by
  constructor
  · rfl
  · rw [h]
    show readBytes (writeBytes (x64_dispatch_patch_edge b m site dst) site
      (call_enc site b.dispatch_static)) site 5 =
      call_enc site b.dispatch_static
    have hl : (call_enc site b.dispatch_static).length = 5 := rfl
    rw [← hl]
    exact readBytes_writeBytes _ _ _

/-- C8 witness: at site 0x50 with the static thunk at 200 (b0), patching a
jump to 0x300 and then restoring reproduces the original call bytes. -/
theorem claim_C8_witness :
    (jmp_enc 0x50 0x300).length = (call_enc 0x50 200).length ∧
    readBytes (x64_dispatch_restore_edge b0
      (x64_dispatch_patch_edge b0 mem8 0x50 0x300) 0x50 0x2000) 0x50 5 =
      readBytes mem8 0x50 5 :=
  claim_C8 b0 mem8 0x50 0x300 0x2000 (by decide)

/-- C9: lookup_code returns exactly the contents of the slot at
(addr & cache_mask) >> cache_shift without modifying the backend; after a
successful install of entry at addr, lookup on any address with the same
slot index returns the entry, and lookup on any address with a different
slot index returns that slot's prior contents unchanged. -/
theorem claim_C9 (b : X64Backend) (addr a1 a2 : Nat) (entry : Ptr)
    (h : b.cache (x64_dispatch_code_ptr b addr) = b.dispatch_compile)
    (h1 : x64_dispatch_code_ptr b a1 = x64_dispatch_code_ptr b addr)
    (h2 : x64_dispatch_code_ptr b a2 ≠ x64_dispatch_code_ptr b addr) :
    x64_dispatch_lookup_code b addr = b.cache (x64_dispatch_code_ptr b addr) ∧
    x64_dispatch_cache_code b addr entry = some (installBackend b addr entry) ∧
    x64_dispatch_lookup_code (installBackend b addr entry) a1 = entry ∧
    x64_dispatch_lookup_code (installBackend b addr entry) a2 =
      x64_dispatch_lookup_code b a2 := by
  refine ⟨rfl, by simp [x64_dispatch_cache_code, h], ?_, ?_⟩
  · show setSlot b.cache (x64_dispatch_code_ptr b addr) entry
      (x64_dispatch_code_ptr b a1) = entry
    rw [h1, setSlot_eq]
  · show setSlot b.cache (x64_dispatch_code_ptr b addr) entry
      (x64_dispatch_code_ptr b a2) = b.cache (x64_dispatch_code_ptr b a2)
    exact setSlot_ne b.cache entry h2

/-- C9 witness: on bCompile, installing entry 9 at 0x1000 makes lookup of
the slot-sharing address 0x1001000 return 9 while lookup of 0x2000 still
returns the compile thunk 300. -/
theorem claim_C9_witness :
    x64_dispatch_lookup_code bCompile 0x1000 =
      bCompile.cache (x64_dispatch_code_ptr bCompile 0x1000) ∧
    x64_dispatch_cache_code bCompile 0x1000 9 =
      some (installBackend bCompile 0x1000 9) ∧
    x64_dispatch_lookup_code (installBackend bCompile 0x1000 9) 0x1001000 = 9 ∧
    x64_dispatch_lookup_code (installBackend bCompile 0x1000 9) 0x2000 =
      x64_dispatch_lookup_code bCompile 0x2000 :=
  claim_C9 bCompile 0x1000 0x1001000 0x2000 9 rfl (by decide) (by decide)

/-- C10: for every address, the slot index computed by x64_dispatch_code_ptr
on an init-configured backend is strictly below cache_size =
(cache_mask >> cache_shift) + 1, so the cache accesses of lookup_code,
cache_code and invalidate_code stay in bounds. -/
theorem claim_C10 (b : X64Backend) (guest : JitGuest) (fresh : Nat → Ptr)
    (addr : Nat) :
    x64_dispatch_code_ptr (x64_dispatch_init b guest fresh) addr <
      (x64_dispatch_init b guest fresh).cache_size := by
  show (addr &&& guest.addr_mask) >>> ctz32 guest.addr_mask <
    (guest.addr_mask >>> ctz32 guest.addr_mask) + 1
  have h1 : addr &&& guest.addr_mask ≤ guest.addr_mask := Nat.and_le_right
  have h2 : (addr &&& guest.addr_mask) >>> ctz32 guest.addr_mask ≤
      guest.addr_mask >>> ctz32 guest.addr_mask := by
    rw [Nat.shiftRight_eq_div_pow, Nat.shiftRight_eq_div_pow]
    exact Nat.div_le_div_right h1
  omega

end X64Dispatch
